import Mathlib

/-!
Verification of the role-scoped user-directory service.

The definitions below are a shallow embedding of the Python sources:
  - `src/backend/apps/Users/models.py` (the `User` model and `UserRole` choices),
  - `src/backend/apps/Users/views.py` (list filtering, detail-object resolution,
    login, toggle-status, change-role),
  - `src/backend/apps/Users/serializers.py` (`UserLoginSerializer.validate`),
  - `src/frontend/services/services.py` (`DjangoAPIService.make_request`).

The database is a list of user rows; Django ORM calls (`filter`, `get`,
`save`, token `get_or_create`) are explicit list operations; HTTP responses
are inductive result values carrying status class and payload.
-/

namespace UsersTest

/-- A row of the `users` table, from `models.py` class `User(AbstractUser)`:
`id` (primary key), `username`, `email`, `role` (a free string column whose
valid choices are `UserRole.choices`), `is_active`, plus the `AbstractUser`
flags `is_staff` and `is_superuser`, and the two timestamps `created_at`
(`auto_now_add`) and `updated_at` (`auto_now`, refreshed on every save).
Timestamps are modelled as natural-number clock readings. -/
structure DUser where
  id : Nat
  username : String
  email : String
  role : String
  is_active : Bool
  is_staff : Bool
  is_superuser : Bool
  created_at : Nat
  updated_at : Nat
deriving Repr, DecidableEq

/-- The value strings of `UserRole.choices` in `models.py`, in declaration
order: ADMIN, STUDENT, FACULTY, STAFF. -/
def UserRole.choices : List String := ["admin", "student", "faculty", "staff"]

/-- `User.save()` as performed by the views: because `updated_at` has
`auto_now=True` (models.py), every save stamps the instance's `updated_at`
with the current time, then writes the row back into the table by primary
key. Returns the saved instance together with the updated table. -/
def User.save (now : Nat) (u : DUser) (db : List DUser) : DUser × List DUser :=
  let saved := { u with updated_at := now }
  (saved, db.map (fun v => if v.id == saved.id then saved else v))

/-- `User.objects.get(id=user_id)`: the unique row with the given primary
key, or `none` (`User.DoesNotExist`) when absent. -/
def User.objects.get (user_id : Nat) (db : List DUser) : Option DUser :=
  db.find? (fun u => u.id == user_id)

/-- `UserListCreateView.get_queryset` (views.py lines 84-107): role-based
filtering of the user list. Admin sees the whole table; faculty sees
`role__in=['faculty','staff','student']`; staff sees `role='faculty'`;
student sees `role__in=['faculty','student']`; any other role gets
`User.objects.none()`. -/
def UserListCreateView.get_queryset (user : DUser) (db : List DUser) : List DUser :=
  if user.role == "admin" then
    db
  else if user.role == "faculty" then
    db.filter (fun u => ["faculty", "staff", "student"].contains u.role)
  else if user.role == "staff" then
    db.filter (fun u => u.role == "faculty")
  else if user.role == "student" then
    db.filter (fun u => ["faculty", "student"].contains u.role)
  else
    []

/-- The visibility table of spec section 4.1, stated from the spec's words
for the refinement comparison with `UserListCreateView.get_queryset`:
admin sees all four roles, faculty sees faculty/staff/student, staff sees
faculty only, student sees faculty/student, anything else sees nothing. -/
def visibleRolesSpecTable (actorRole : String) : List String :=
  if actorRole == "admin" then ["admin", "faculty", "staff", "student"]
  else if actorRole == "faculty" then ["faculty", "staff", "student"]
  else if actorRole == "staff" then ["faculty"]
  else if actorRole == "student" then ["faculty", "student"]
  else []

/-- `UserDetailView.get_object` (views.py lines 144-156): staff-flagged or
admin-role requesters resolve the URL's primary key against the table
(`super().get_object()`); every other requester gets their own record back,
whatever `pk` the URL carried. -/
def UserDetailView.get_object (request_user : DUser) (pk : Nat) (db : List DUser) :
    Option DUser :=
  if request_user.is_staff || request_user.role == "admin" then
    User.objects.get pk db
  else
    some request_user

/-- Outcome of `UserLoginSerializer.validate` (serializers.py lines 139-168):
either the authenticated user, or a `ValidationError` carrying its message. -/
inductive LoginValidation where
  | ok (user : DUser)
  | validationError (message : String)
deriving Repr, DecidableEq

/-- `UserLoginSerializer.validate` (serializers.py lines 139-168). The
credential store (`django.contrib.auth.authenticate`, an external
collaborator) is passed in as a function from (email, password) to an
optional matched identity. Empty email or password is falsy in Python, so
the outer `if email and password` guard requires both nonempty. A store
miss raises `ValidationError('Invalid credentials')`; a match whose
`is_active` is false raises `ValidationError('User account is disabled')`. -/
def UserLoginSerializer.validate (authenticate : String → String → Option DUser)
    (email password : String) : LoginValidation :=
  if email != "" && password != "" then
    match authenticate email password with
    | none => .validationError "Invalid credentials"
    | some user =>
      if !user.is_active then .validationError "User account is disabled"
      else .ok user
  else
    .validationError "Must include email and password"

/-- `Token.objects.get_or_create(user=user)` (views.py line 210): the token
store is a list of `(user id, key)` bindings. If the user already has a
binding, its key is returned with `created = false` and the store is left
unchanged; otherwise a binding with the supplied fresh key is appended and
returned with `created = true`. -/
def Token.objects.get_or_create (user_id : Nat) (store : List (Nat × String))
    (fresh_key : String) : String × Bool × List (Nat × String) :=
  match store.find? (fun b => b.1 == user_id) with
  | some b => (b.2, false, store)
  | none => (fresh_key, true, store ++ [(user_id, fresh_key)])

/-- The HTTP-level response of `login_view`: 200 with message, user payload
and token key, or 400 with the serializer's error message. -/
inductive LoginResponse where
  | ok (message : String) (user : DUser) (token : String)
  | badRequest (errors : String)
deriving Repr, DecidableEq

/-- `login_view` (views.py lines 204-219): run the login serializer; on
success, get-or-create the user's token and answer 200 with the token key;
on validation failure answer 400 with the serializer errors. `fresh_key` is
the key DRF would generate if a new token had to be created. -/
def login_view (authenticate : String → String → Option DUser)
    (email password : String) (store : List (Nat × String)) (fresh_key : String) :
    LoginResponse × List (Nat × String) :=
  match UserLoginSerializer.validate authenticate email password with
  | .validationError msg => (.badRequest msg, store)
  | .ok user =>
    let r := Token.objects.get_or_create user.id store fresh_key
    (.ok "Login successful" user r.1, r.2.2)

/-- Response of the mutation endpoints `toggle_user_status` and
`change_user_role`: 200 with message and serialized user, 400, 403 or 404
with an error string. -/
inductive ApiResult where
  | ok (message : String) (user : DUser)
  | badRequest (error : String)
  | forbidden (error : String)
  | notFound (error : String)
deriving Repr, DecidableEq

/-- Whether an `ApiResult` is the 200 success case. -/
def ApiResult.isOk : ApiResult → Bool
  | .ok _ _ => true
  | _ => false

/-- Whether an `ApiResult` is the 403 case. -/
def ApiResult.isForbidden : ApiResult → Bool
  | .forbidden _ => true
  | _ => false

/-- The user payload of a 200 `ApiResult`, if any. -/
def ApiResult.payload : ApiResult → Option DUser
  | .ok _ u => some u
  | _ => none

/-- `toggle_user_status` (views.py lines 393-446). Look up the target by id
(404 when absent); refuse self-modification with a 400; admins may toggle
anyone, faculty only students (403 otherwise), everyone else is refused
with a 403; then flip `is_active`, save (stamping `updated_at := now` via
`auto_now`), and answer 200 with the activated/deactivated message. -/
def toggle_user_status (current_user : DUser) (user_id : Nat) (db : List DUser)
    (now : Nat) : ApiResult × List DUser :=
  match User.objects.get user_id db with
  | none => (.notFound "User not found", db)
  | some target_user =>
    if target_user.id == current_user.id then
      (.badRequest "Cannot change your own status", db)
    else if current_user.role == "admin" then
      let r := User.save now { target_user with is_active := !target_user.is_active } db
      (.ok ("User " ++ r.1.username ++ " has been " ++
            (if r.1.is_active then "activated" else "deactivated")) r.1, r.2)
    else if current_user.role == "faculty" then
      if target_user.role != "student" then
        (.forbidden "Faculty can only deactivate students", db)
      else
        let r := User.save now { target_user with is_active := !target_user.is_active } db
        (.ok ("User " ++ r.1.username ++ " has been " ++
              (if r.1.is_active then "activated" else "deactivated")) r.1, r.2)
    else
      (.forbidden "Insufficient permissions to change user status", db)

/-- `change_user_role` (views.py lines 449-499). The admin check comes
first (403 for every non-admin actor, before the target is even loaded);
then the target lookup (404), the missing-role check (`if not new_role`,
so an absent or empty role string gives 400), the valid-role check (400),
the self-change check (400), and finally the role update and save. -/
def change_user_role (current_user : DUser) (user_id : Nat)
    (role_param : Option String) (db : List DUser) (now : Nat) :
    ApiResult × List DUser :=
  if current_user.role != "admin" then
    (.forbidden "Admin access required", db)
  else
    match User.objects.get user_id db with
    | none => (.notFound "User not found", db)
    | some user =>
      let new_role := role_param.getD ""
      if new_role == "" then
        (.badRequest "Role is required", db)
      else if !(UserRole.choices.contains new_role) then
        (.badRequest "Invalid role", db)
      else if user.id == current_user.id then
        (.badRequest "Cannot change your own role", db)
      else
        let r := User.save now { user with role := new_role } db
        (.ok ("User " ++ r.1.username ++ " role changed to " ++ new_role) r.1, r.2)

/-- The ordered first-match rules of spec section 4.1 for
`canToggleStatus`, stated from the spec's words for the refinement
comparison with `toggle_user_status`. -/
def canToggleStatusSpec (actorRole : String) (actorId targetId : Nat)
    (targetRole : String) : Bool :=
  if actorId == targetId then false
  else if actorRole == "admin" then true
  else if actorRole == "faculty" then targetRole == "student"
  else false

/-- The ordered rules of spec section 4.1 for `canChangeRole`, stated from
the spec's words for the refinement comparison with `change_user_role`. -/
def canChangeRoleSpec (actorRole : String) (actorId targetId : Nat) : Bool :=
  if actorRole != "admin" then false
  else if actorId == targetId then false
  else true

/-- What one iteration of the `make_request` retry loop
(services.py lines 174-258) observes for its attempt: a connection error,
a timeout, another `RequestException`, or an HTTP response with its status
code, whether the body is nonempty (`response.content`), and whether the
body parses as JSON (`response.json()` succeeding). -/
inductive HttpAttempt where
  | connectionError
  | timeoutError
  | requestException
  | response (status : Nat) (has_content : Bool) (parses : Bool)
deriving Repr, DecidableEq

/-- Whether an attempt outcome is a transport-layer failure, i.e. one of
the two exception classes the loop retries
(`requests.exceptions.ConnectionError` and `requests.exceptions.Timeout`). -/
def HttpAttempt.isTransport : HttpAttempt → Bool
  | .connectionError => true
  | .timeoutError => true
  | _ => false

/-- Classification of the dictionary `make_request` returns: the success
cases (parsed body, or the empty-body success), the invalid-JSON-on-success
failure, the structured 4xx/5xx failure (recording whether the error body
parsed), the two transport failures reported after the budget is exhausted,
the immediate `RequestException` failure, and the unreachable fall-through
return after the loop. -/
inductive MROutcome where
  | successData
  | successEmpty
  | invalidJsonOnSuccess
  | httpFailure (status : Nat) (body_parses : Bool)
  | connectionFailure
  | timeoutFailure
  | networkFailure
  | fellThrough
deriving Repr, DecidableEq

/-- Observable trace of one `make_request` call: the returned outcome, how
many attempts the loop made, and how many seconds it slept (`time.sleep(1)`
once before each retry, so one second per extra attempt). -/
structure MRTrace where
  outcome : MROutcome
  attempts_made : Nat
  sleep_seconds : Nat
deriving Repr, DecidableEq

/-- The outcome `make_request` reports when its last attempt was the given
transport failure: the connection-error message or the timeout message. -/
def HttpAttempt.exhaustedOutcome : HttpAttempt → MROutcome
  | .connectionError => .connectionFailure
  | _ => .timeoutFailure

/-- The body of `for attempt in range(retries)` in
`DjangoAPIService.make_request` (services.py lines 174-258), written as a
recursion on the number of loop iterations left. `i` is the current value
of `attempt`, `remaining + 1` the number of indices still to run (so
`attempt < retries - 1`, the guard for sleeping and retrying, is exactly
`remaining != 0`), and `slept` the seconds slept so far. Status 200/201
with content returns success when the body parses and the invalid-JSON
failure otherwise; 200/201 without content returns the empty success; any
other status returns the structured failure immediately; connection errors
and timeouts sleep one second and continue while attempts remain, else
report exhaustion; any other `RequestException` returns immediately.
Running out of iterations reaches the guarded final return. -/
def make_requestLoop (attempts : Nat → HttpAttempt) :
    Nat → Nat → Nat → MRTrace
  | 0, i, slept => ⟨.fellThrough, i, slept⟩
  | remaining + 1, i, slept =>
    match attempts i with
    | .response status has_content parses =>
      if status == 200 || status == 201 then
        if has_content then
          if parses then ⟨.successData, i + 1, slept⟩
          else ⟨.invalidJsonOnSuccess, i + 1, slept⟩
        else ⟨.successEmpty, i + 1, slept⟩
      else ⟨.httpFailure status parses, i + 1, slept⟩
    | .connectionError =>
      if remaining == 0 then ⟨.connectionFailure, i + 1, slept⟩
      else make_requestLoop attempts remaining (i + 1) (slept + 1)
    | .timeoutError =>
      if remaining == 0 then ⟨.timeoutFailure, i + 1, slept⟩
      else make_requestLoop attempts remaining (i + 1) (slept + 1)
    | .requestException => ⟨.networkFailure, i + 1, slept⟩

/-- `DjangoAPIService.make_request` with a resolved retry budget: run the
retry loop from attempt 0 with no time slept yet. The i-th loop iteration
observes `attempts i`. -/
def make_request (attempts : Nat → HttpAttempt) (retries : Nat) : MRTrace :=
  make_requestLoop attempts retries 0 0

/-- `self.default_retries` when the `API_RETRIES` environment variable is
unset: `int(os.getenv('API_RETRIES', '3'))` (services.py line 111). -/
def default_retries : Nat := 3

/-- Resolution of the `retries` argument of `make_request`
(services.py line 172): `retries = retries or self.default_retries`, so a
missing argument and the falsy `0` both fall back to the default budget. -/
def resolve_retries (arg : Option Nat) : Nat :=
  match arg with
  | some n => if n == 0 then default_retries else n
  | none => default_retries

/-! Concrete sample rows used by witness and counterexample theorems. -/

/-- A student row with id 1. -/
def samStudent : DUser := ⟨1, "sam", "sam@example.test", "student", true, false, false, 0, 0⟩

/-- An admin row with id 2. -/
def aliceAdmin : DUser := ⟨2, "alice", "alice@example.test", "admin", true, false, false, 0, 0⟩

/-- A faculty row with id 3. -/
def fayeFaculty : DUser := ⟨3, "faye", "faye@example.test", "faculty", true, false, false, 0, 0⟩

/-- A staff row with id 4. -/
def stanStaff : DUser := ⟨4, "stan", "stan@example.test", "staff", true, false, false, 0, 0⟩

/-- A row whose role string is not one of the four valid choices. -/
def gaborGuest : DUser := ⟨5, "gabor", "gabor@example.test", "guest", true, false, false, 0, 0⟩

/-- C1: for every actor whose target has one of the four valid roles, the
user-list queryset contains a row exactly when the row is in the table and
its role is in the section-4.1 visibility set of the actor's role (admin
sees all four roles, faculty sees faculty/staff/student, staff sees
faculty, student sees faculty/student); and an actor whose role is outside
the four valid values gets the empty queryset rather than an error. -/
theorem get_queryset_matches_visibility_table (actor u : DUser) (db : List DUser) :
    (u.role ∈ UserRole.choices →
      (u ∈ UserListCreateView.get_queryset actor db ↔
        u ∈ db ∧ u.role ∈ visibleRolesSpecTable actor.role))
    ∧ (actor.role ∉ UserRole.choices →
        UserListCreateView.get_queryset actor db = []) := by
  constructor
  · intro hu
    simp [UserRole.choices] at hu
    unfold UserListCreateView.get_queryset visibleRolesSpecTable
    by_cases ha : actor.role = "admin" <;>
      by_cases hf : actor.role = "faculty" <;>
        by_cases hs : actor.role = "staff" <;>
          by_cases ht : actor.role = "student" <;>
            simp_all [List.mem_filter] <;> tauto
  · intro hact
    simp [UserRole.choices] at hact
    unfold UserListCreateView.get_queryset
    simp [hact]

/-- Witness for C1: a staff row is visible to a faculty actor exactly as
the table prescribes, and an actor with the unrecognized role "guest" gets
the empty list. -/
theorem get_queryset_matches_visibility_table_witness :
    (stanStaff ∈ UserListCreateView.get_queryset fayeFaculty [aliceAdmin, stanStaff] ↔
      stanStaff ∈ [aliceAdmin, stanStaff] ∧
        stanStaff.role ∈ visibleRolesSpecTable fayeFaculty.role)
    ∧ UserListCreateView.get_queryset gaborGuest [aliceAdmin, stanStaff] = [] :=
  ⟨(get_queryset_matches_visibility_table fayeFaculty stanStaff [aliceAdmin, stanStaff]).1
      (by decide),
    (get_queryset_matches_visibility_table gaborGuest stanStaff [aliceAdmin, stanStaff]).2
      (by decide)⟩

/-- C2: when the target of `toggle_user_status` exists, the request
succeeds exactly when the ordered first-match rules of section 4.1 allow
it: denied for self-toggle whatever the role, otherwise allowed for admin
actors, otherwise allowed for faculty actors iff the target is a student,
otherwise denied. -/
theorem toggle_status_decision (current target : DUser) (db : List DUser)
    (tid now : Nat) (hfind : db.find? (fun u => u.id == tid) = some target) :
    (toggle_user_status current tid db now).1.isOk =
      canToggleStatusSpec current.role current.id target.id target.role := by
  unfold toggle_user_status User.objects.get canToggleStatusSpec
  rw [hfind]
  by_cases h1 : target.id = current.id <;>
    by_cases h2 : current.role = "admin" <;>
      by_cases h3 : current.role = "faculty" <;>
        by_cases h4 : target.role = "student" <;>
          simp_all [ApiResult.isOk, User.save] <;> omega

/-- Witness for C2: a faculty actor toggling an existing student is an
allowed request, matching the spec decision table. -/
theorem toggle_status_decision_witness :
    (toggle_user_status fayeFaculty 1 [samStudent, fayeFaculty] 7).1.isOk =
      canToggleStatusSpec fayeFaculty.role fayeFaculty.id samStudent.id samStudent.role :=
  toggle_status_decision fayeFaculty samStudent [samStudent, fayeFaculty] 1 7 (by decide)

/-- C3: when the target of `change_user_role` exists and the requested
role is one of the four valid values, the request succeeds exactly when
the section-4.1 rules allow it: denied for non-admin actors, denied for an
admin changing their own role, allowed otherwise. -/
theorem change_role_decision (current target : DUser) (db : List DUser)
    (tid now : Nat) (r : String)
    (hfind : db.find? (fun u => u.id == tid) = some target)
    (hvalid : r ∈ UserRole.choices) :
    (change_user_role current tid (some r) db now).1.isOk =
      canChangeRoleSpec current.role current.id target.id := by
  unfold change_user_role User.objects.get canChangeRoleSpec
  simp [UserRole.choices] at hvalid
  rcases hvalid with h | h | h | h <;> subst h <;>
    by_cases h1 : current.role = "admin" <;>
      by_cases h2 : target.id = current.id <;>
        simp_all [UserRole.choices, ApiResult.isOk, User.save] <;> omega

/-- Witness for C3: an admin changing another existing user's role to the
valid value "staff" is an allowed request, matching the spec decision. -/
theorem change_role_decision_witness :
    (change_user_role aliceAdmin 1 (some "staff") [samStudent, aliceAdmin] 0).1.isOk =
      canChangeRoleSpec aliceAdmin.role aliceAdmin.id samStudent.id :=
  change_role_decision aliceAdmin samStudent [samStudent, aliceAdmin] 1 0 "staff"
    (by decide) (by decide)

/-- C10: a requester who lacks the staff flag and whose role is not admin
always gets their own record from `UserDetailView.get_object`, whatever
primary key the URL carries — they can never reach another user's row
through the detail endpoint. -/
theorem get_object_nonadmin_self (request_user : DUser) (pk : Nat) (db : List DUser)
    (hstaff : request_user.is_staff = false) (hrole : request_user.role ≠ "admin") :
    UserDetailView.get_object request_user pk db = some request_user := by
  unfold UserDetailView.get_object
  simp [hstaff, hrole]

/-- Witness for C10: a student requester asking for the admin's primary
key 2 is silently given their own record. -/
theorem get_object_nonadmin_self_witness :
    UserDetailView.get_object samStudent 2 [samStudent, aliceAdmin] = some samStudent :=
  get_object_nonadmin_self samStudent 2 [samStudent, aliceAdmin] (by decide) (by decide)

/-- Counterexample for C8: a student actor invoking `change_user_role` on
the nonexistent target id 99 receives the 403 "Admin access required", not
the claimed 404 — the admin permission check fires before the target is
loaded. -/
theorem change_role_missing_target_cex :
    (change_user_role samStudent 99 (some "staff") [samStudent] 0).1 =
      ApiResult.forbidden "Admin access required"
    ∧ (change_user_role samStudent 99 (some "staff") [samStudent] 0).1 ≠
        ApiResult.notFound "User not found" := by
  decide

/-- C8 (amended): in `change_user_role` the admin permission check is
evaluated first — every non-admin actor receives the 403
"Admin access required" whether or not the target exists; for an admin
actor, a missing target yields the 404 "User not found" before the
role-validation (400) and self-change checks, whatever role value the
request body carries. -/
theorem change_role_admin_check_first (current : DUser) (db : List DUser)
    (tid now : Nat) (role_param : Option String) :
    (current.role ≠ "admin" →
      (change_user_role current tid role_param db now).1 =
        ApiResult.forbidden "Admin access required")
    ∧ (current.role = "admin" → db.find? (fun u => u.id == tid) = none →
        (change_user_role current tid role_param db now).1 =
          ApiResult.notFound "User not found") := by
  constructor
  · intro h
    unfold change_user_role
    simp [h]
  · intro h hf
    unfold change_user_role User.objects.get
    simp [h, hf]

/-- Witness for C8 (amended): a staff actor is refused outright even with
a valid role value and an existing target, and an admin aiming at the
absent id 99 with an invalid role value still gets the 404 first. -/
theorem change_role_admin_check_first_witness :
    (change_user_role stanStaff 1 (some "faculty") [samStudent, stanStaff] 0).1 =
      ApiResult.forbidden "Admin access required"
    ∧ (change_user_role aliceAdmin 99 (some "bogus") [samStudent, aliceAdmin] 0).1 =
        ApiResult.notFound "User not found" :=
  ⟨(change_role_admin_check_first stanStaff [samStudent, stanStaff] 1 0
      (some "faculty")).1 (by decide),
    (change_role_admin_check_first aliceAdmin [samStudent, aliceAdmin] 99 0
      (some "bogus")).2 (by decide) (by decide)⟩

/-- Counterexample for C9: the admin toggling their own status — a denied
request — is answered with the 400 `badRequest` "Cannot change your own
status", not with a `forbidden` response, so not every denial is surfaced
as a Forbidden error. -/
theorem self_denial_not_forbidden_cex :
    (toggle_user_status aliceAdmin 2 [samStudent, aliceAdmin] 0).1 =
      ApiResult.badRequest "Cannot change your own status"
    ∧ (toggle_user_status aliceAdmin 2 [samStudent, aliceAdmin] 0).1.isForbidden = false := by
  decide

/-- C9 (amended): every denied `toggle_user_status` or `change_user_role`
request carries the human-readable reason of the specific rule that fired,
but the classification splits: role-based denials are 403 Forbidden
("Faculty can only deactivate students", "Insufficient permissions to
change user status", "Admin access required"), while the self-modification
denials are 400 BadRequest ("Cannot change your own status",
"Cannot change your own role"). -/
theorem denial_reasons (current target : DUser) (db : List DUser)
    (tid now : Nat) (r : String)
    (hfind : db.find? (fun u => u.id == tid) = some target) :
    (target.id = current.id →
      (toggle_user_status current tid db now).1 =
        ApiResult.badRequest "Cannot change your own status")
    ∧ (target.id ≠ current.id → current.role = "faculty" → target.role ≠ "student" →
        (toggle_user_status current tid db now).1 =
          ApiResult.forbidden "Faculty can only deactivate students")
    ∧ (target.id ≠ current.id → current.role ≠ "admin" → current.role ≠ "faculty" →
        (toggle_user_status current tid db now).1 =
          ApiResult.forbidden "Insufficient permissions to change user status")
    ∧ (current.role ≠ "admin" →
        (change_user_role current tid (some r) db now).1 =
          ApiResult.forbidden "Admin access required")
    ∧ (current.role = "admin" → target.id = current.id → r ∈ UserRole.choices →
        (change_user_role current tid (some r) db now).1 =
          ApiResult.badRequest "Cannot change your own role") := by
  refine ⟨?_, ?_, ?_, ?_, ?_⟩
  · intro h
    unfold toggle_user_status User.objects.get
    rw [hfind]
    simp [h]
  · intro h hf hs
    unfold toggle_user_status User.objects.get
    rw [hfind]
    have : current.role ≠ "admin" := by rw [hf]; decide
    simp [h, hf, hs, this]
  · intro h ha hf
    unfold toggle_user_status User.objects.get
    rw [hfind]
    simp [h, ha, hf]
  · intro h
    unfold change_user_role
    simp [h]
  · intro h hself hr
    unfold change_user_role User.objects.get
    simp [UserRole.choices] at hr
    rcases hr with h4 | h4 | h4 | h4 <;> subst h4 <;>
      simp [h, hself, hfind, UserRole.choices]

/-- Witness for C9 (amended): one concrete request per denial rule — a
student self-toggle, a faculty actor toggling a staff target, a staff
actor toggling a student, a staff actor on change-role, and an admin
self-change of role — each answered with the rule's reason and status. -/
theorem denial_reasons_witness :
    (toggle_user_status samStudent 1 [samStudent, aliceAdmin] 0).1 =
      ApiResult.badRequest "Cannot change your own status"
    ∧ (toggle_user_status fayeFaculty 4 [stanStaff, fayeFaculty] 0).1 =
        ApiResult.forbidden "Faculty can only deactivate students"
    ∧ (toggle_user_status stanStaff 1 [samStudent, stanStaff] 0).1 =
        ApiResult.forbidden "Insufficient permissions to change user status"
    ∧ (change_user_role stanStaff 1 (some "faculty") [samStudent, stanStaff] 0).1 =
        ApiResult.forbidden "Admin access required"
    ∧ (change_user_role aliceAdmin 2 (some "staff") [samStudent, aliceAdmin] 0).1 =
        ApiResult.badRequest "Cannot change your own role" :=
  ⟨(denial_reasons samStudent samStudent [samStudent, aliceAdmin] 1 0 "staff"
      (by decide)).1 (by decide),
    (denial_reasons fayeFaculty stanStaff [stanStaff, fayeFaculty] 4 0 "staff"
      (by decide)).2.1 (by decide) (by decide) (by decide),
    (denial_reasons stanStaff samStudent [samStudent, stanStaff] 1 0 "staff"
      (by decide)).2.2.1 (by decide) (by decide) (by decide),
    (denial_reasons stanStaff samStudent [samStudent, stanStaff] 1 0 "faculty"
      (by decide)).2.2.2.1 (by decide),
    (denial_reasons aliceAdmin aliceAdmin [samStudent, aliceAdmin] 2 0 "staff"
      (by decide)).2.2.2.2 (by decide) (by decide) (by decide)⟩

/-- A disabled account row, used by the C6 counterexample. -/
def doraDisabled : DUser :=
  ⟨6, "dora", "dora@example.test", "student", false, false, false, 0, 0⟩

/-- A credential store (the serializer's external `authenticate`
collaborator) that matches exactly one credential pair, whose account is
disabled. -/
def storeWithDisabled : String → String → Option DUser := fun e p =>
  if e == "dora@example.test" && p == "pw" then some doraDisabled else none

/-- Counterexample for C6: against the same credential store, the
disabled-account login fails with the message "User account is disabled"
while the no-match login fails with "Invalid credentials" — the two
failures surfaced to the caller are not identical, so the caller can tell
which part failed. -/
theorem login_failures_distinguishable_cex :
    UserLoginSerializer.validate storeWithDisabled "dora@example.test" "pw" =
      LoginValidation.validationError "User account is disabled"
    ∧ UserLoginSerializer.validate storeWithDisabled "nobody@example.test" "pw" =
        LoginValidation.validationError "Invalid credentials"
    ∧ LoginValidation.validationError "User account is disabled" ≠
        LoginValidation.validationError "Invalid credentials" := by
  decide

/-- C6 (amended): both login failure modes are surfaced through the same
channel — a serializer validation error that `login_view` answers with a
400 response and an unchanged token store — but with distinct messages:
"Invalid credentials" when the store reports no match, and
"User account is disabled" when the matched identity is inactive, so the
caller can distinguish which part failed. -/
theorem login_failure_channel (authenticate : String → String → Option DUser)
    (email password : String) (store : List (Nat × String)) (fresh_key : String)
    (he : email ≠ "") (hp : password ≠ "") :
    (authenticate email password = none →
      login_view authenticate email password store fresh_key =
        (LoginResponse.badRequest "Invalid credentials", store))
    ∧ (∀ u, authenticate email password = some u → u.is_active = false →
        login_view authenticate email password store fresh_key =
          (LoginResponse.badRequest "User account is disabled", store)) := by
  constructor
  · intro h
    unfold login_view UserLoginSerializer.validate
    simp [he, hp, h]
  · intro u h hu
    unfold login_view UserLoginSerializer.validate
    simp [he, hp, h, hu]

/-- Witness for C6 (amended): the concrete store of the counterexample,
exercised through `login_view`, answers 400 with each of the two
messages. -/
theorem login_failure_channel_witness :
    login_view storeWithDisabled "nobody@example.test" "pw" [] "k" =
      (LoginResponse.badRequest "Invalid credentials", [])
    ∧ login_view storeWithDisabled "dora@example.test" "pw" [] "k" =
        (LoginResponse.badRequest "User account is disabled", []) :=
  ⟨(login_failure_channel storeWithDisabled "nobody@example.test" "pw" [] "k"
      (by decide) (by decide)).1 (by decide),
    (login_failure_channel storeWithDisabled "dora@example.test" "pw" [] "k"
      (by decide) (by decide)).2 doraDisabled (by decide) (by decide)⟩

/-- An active account row, used by the C7 counterexample. -/
def amyActive : DUser :=
  ⟨7, "amy", "amy@example.test", "student", true, false, false, 0, 0⟩

/-- A credential store that matches exactly one credential pair, whose
account is active. -/
def storeWithActive : String → String → Option DUser := fun e p =>
  if e == "amy@example.test" && p == "pw" then some amyActive else none

/-- Counterexample for C7: the first successful login mints and stores
"key1"; the second successful login for the same identity, although a
fresh key "key2" is available, returns "key1" again — `get_or_create`
reuses the stored token instead of minting a new independent one. -/
theorem login_token_reused_cex :
    login_view storeWithActive "amy@example.test" "pw" [] "key1" =
      (LoginResponse.ok "Login successful" amyActive "key1", [(7, "key1")])
    ∧ (login_view storeWithActive "amy@example.test" "pw" [(7, "key1")] "key2").1 =
        LoginResponse.ok "Login successful" amyActive "key1"
    ∧ ("key1" : String) ≠ "key2" := by
  decide

/-- C7 (amended): a successful login returns the identity's existing token
when one is stored, leaving the store — and hence the prior token's
validity — untouched; a new token is minted and bound only when the
identity has none (`Token.objects.get_or_create` semantics). -/
theorem login_token_get_or_create (authenticate : String → String → Option DUser)
    (email password fresh_key : String) (store : List (Nat × String)) (u : DUser)
    (hauth : authenticate email password = some u) (hactive : u.is_active = true)
    (he : email ≠ "") (hp : password ≠ "") :
    (∀ b, store.find? (fun x => x.1 == u.id) = some b →
      login_view authenticate email password store fresh_key =
        (LoginResponse.ok "Login successful" u b.2, store))
    ∧ (store.find? (fun x => x.1 == u.id) = none →
        login_view authenticate email password store fresh_key =
          (LoginResponse.ok "Login successful" u fresh_key,
            store ++ [(u.id, fresh_key)])) := by
  constructor
  · intro b hb
    unfold login_view UserLoginSerializer.validate Token.objects.get_or_create
    simp [he, hp, hauth, hactive, hb]
  · intro hb
    unfold login_view UserLoginSerializer.validate Token.objects.get_or_create
    simp [he, hp, hauth, hactive, hb]

/-- Witness for C7 (amended): with the binding (7, "key1") already stored,
amy's login returns "key1" and leaves the store unchanged; with an empty
store it returns and binds the fresh "key9". -/
theorem login_token_get_or_create_witness :
    login_view storeWithActive "amy@example.test" "pw" [(7, "key1")] "key2" =
      (LoginResponse.ok "Login successful" amyActive "key1", [(7, "key1")])
    ∧ login_view storeWithActive "amy@example.test" "pw" [] "key9" =
        (LoginResponse.ok "Login successful" amyActive "key9", [(7, "key9")]) :=
  ⟨(login_token_get_or_create storeWithActive "amy@example.test" "pw" "key2"
      [(7, "key1")] amyActive (by decide) (by decide) (by decide) (by decide)).1
      (7, "key1") (by decide),
    (login_token_get_or_create storeWithActive "amy@example.test" "pw" "key9"
      [] amyActive (by decide) (by decide) (by decide) (by decide)).2 (by decide)⟩

/-- The row a permitted `toggle_user_status` call persists: `is_active`
flipped and `updated_at` stamped with the save time; every other field of
the target kept. -/
def toggledUser (target : DUser) (now : Nat) : DUser :=
  { target with is_active := !target.is_active, updated_at := now }

/-- Looking a row up by id after `User.save` wrote back a row with the
same id finds the written row: the rows before the hit do not carry the
searched id, so they are unaffected by the write-back. -/
theorem find?_after_save (db : List DUser) (tid : Nat) (target u' : DUser)
    (hf : db.find? (fun u => u.id == tid) = some target) (hid : u'.id = target.id) :
    (db.map (fun v => if v.id == u'.id then u' else v)).find?
        (fun u => u.id == tid) = some u' := by
  have htid : (target.id == tid) = true := by
    have := List.find?_some hf
    simpa using this
  have hu'tid : (u'.id == tid) = true := by rw [hid]; exact htid
  induction db with
  | nil => simp at hf
  | cons v t ih =>
    by_cases hv : (v.id == tid) = true
    · rw [List.find?_cons_of_pos (p := fun (u : DUser) => u.id == tid) _ hv] at hf
      have hveq : v = target := by injection hf
      have hvu : (v.id == u'.id) = true := by rw [hveq, hid]; simp
      rw [List.map_cons]
      have hhead : (if (v.id == u'.id) = true then u' else v) = u' := by simp [hvu]
      rw [hhead]
      exact List.find?_cons_of_pos (p := fun (u : DUser) => u.id == tid) _ hu'tid
    · rw [List.find?_cons_of_neg (p := fun (u : DUser) => u.id == tid) _ (by simpa using hv)] at hf
      have hvu : (v.id == u'.id) = false := by
        have h1 : v.id ≠ tid := by simpa using hv
        have h2 : u'.id = tid := by simpa using hu'tid
        simp [h2]
        omega
      rw [List.map_cons]
      have hhead : (if (v.id == u'.id) = true then u' else v) = v := by simp [hvu]
      rw [hhead]
      rw [List.find?_cons_of_neg (p := fun (u : DUser) => u.id == tid) _ (by simpa using hv)]
      exact ih hf

/-- A permitted toggle (target exists, is not the actor, and the actor is
an admin or a faculty member toggling a student) answers 200 with the
activated/deactivated message and the flipped row, and writes exactly that
row back into the table. -/
theorem toggle_user_status_permitted (current target : DUser) (db : List DUser)
    (tid now : Nat)
    (hfind : db.find? (fun u => u.id == tid) = some target)
    (hself : target.id ≠ current.id)
    (hperm : current.role = "admin" ∨
      (current.role = "faculty" ∧ target.role = "student")) :
    toggle_user_status current tid db now =
      (ApiResult.ok ("User " ++ target.username ++ " has been " ++
          (if !target.is_active then "activated" else "deactivated"))
        (toggledUser target now),
        db.map (fun v => if v.id == target.id then toggledUser target now else v)) := by
  unfold toggle_user_status User.objects.get User.save toggledUser
  rw [hfind]
  rcases hperm with h | ⟨h, hs⟩
  · simp [hself, h]
  · have ha : current.role ≠ "admin" := by rw [h]; decide
    simp [hself, ha, h, hs]

/-- Counterexample for C5: the admin toggling the student with
`updated_at = 0` at save time 5 does flip `is_active`, but the returned
row's `updated_at` is 5, not 0 — a field other than `isActive` changed
(`auto_now` stamps `updated_at` on every save). -/
theorem toggle_status_frame_cex :
    (toggle_user_status aliceAdmin 1 [samStudent, aliceAdmin] 5).1.payload.map
        (fun u => u.is_active) = some false
    ∧ (toggle_user_status aliceAdmin 1 [samStudent, aliceAdmin] 5).1.payload.map
        (fun u => u.updated_at) = some 5
    ∧ samStudent.is_active = true
    ∧ samStudent.updated_at = 0
    ∧ (5 : Nat) ≠ 0 := by
  decide

/-- C5 (amended): for every permitted toggle the returned row satisfies
`is_active = !previous.is_active`, and every field other than `is_active`
and `updated_at` is unchanged (`updated_at` is restamped by `auto_now` on
each save); applying the toggle twice to the same target returns
`is_active` — though not `updated_at` — to its original value. -/
theorem toggle_status_frame (current target : DUser) (db : List DUser)
    (tid now now2 : Nat)
    (hfind : db.find? (fun u => u.id == tid) = some target)
    (hself : target.id ≠ current.id)
    (hperm : current.role = "admin" ∨
      (current.role = "faculty" ∧ target.role = "student")) :
    (∃ m, toggle_user_status current tid db now =
      (ApiResult.ok m (toggledUser target now),
        db.map (fun v => if v.id == target.id then toggledUser target now else v)))
    ∧ (toggledUser target now).is_active = !target.is_active
    ∧ (toggledUser target now).updated_at = now
    ∧ (toggledUser target now).id = target.id
    ∧ (toggledUser target now).username = target.username
    ∧ (toggledUser target now).email = target.email
    ∧ (toggledUser target now).role = target.role
    ∧ (toggledUser target now).is_staff = target.is_staff
    ∧ (toggledUser target now).is_superuser = target.is_superuser
    ∧ (toggledUser target now).created_at = target.created_at
    ∧ (∃ m2, (toggle_user_status current tid
          (toggle_user_status current tid db now).2 now2).1 =
        ApiResult.ok m2 (toggledUser (toggledUser target now) now2))
    ∧ (toggledUser (toggledUser target now) now2).is_active = target.is_active := by
  have k1 := toggle_user_status_permitted current target db tid now hfind hself hperm
  have hfind2 : (db.map (fun v => if v.id == target.id then toggledUser target now
      else v)).find? (fun u => u.id == tid) = some (toggledUser target now) := by
    have h := find?_after_save db tid target (toggledUser target now) hfind rfl
    simpa [toggledUser] using h
  have k2 := toggle_user_status_permitted current (toggledUser target now)
    (db.map (fun v => if v.id == target.id then toggledUser target now else v))
    tid now2 hfind2 (by simpa [toggledUser] using hself)
    (by simpa [toggledUser] using hperm)
  refine ⟨⟨_, k1⟩, rfl, rfl, rfl, rfl, rfl, rfl, rfl, rfl, rfl, ?_, ?_⟩
  · exact ⟨"User " ++ (toggledUser target now).username ++ " has been " ++
      (if !(toggledUser target now).is_active then "activated" else "deactivated"),
      by rw [k1]; exact congrArg Prod.fst k2⟩
  · simp [toggledUser]

/-- Witness for C5 (amended): the admin toggles the student at time 5 and
again at time 9; the persisted row is the flipped, restamped student, and
the second toggle's payload carries the original `is_active` again. -/
theorem toggle_status_frame_witness :
    (∃ m, toggle_user_status aliceAdmin 1 [samStudent, aliceAdmin] 5 =
      (ApiResult.ok m (toggledUser samStudent 5),
        [samStudent, aliceAdmin].map
          (fun v => if v.id == samStudent.id then toggledUser samStudent 5 else v)))
    ∧ (∃ m2, (toggle_user_status aliceAdmin 1
          (toggle_user_status aliceAdmin 1 [samStudent, aliceAdmin] 5).2 9).1 =
        ApiResult.ok m2 (toggledUser (toggledUser samStudent 5) 9))
    ∧ (toggledUser (toggledUser samStudent 5) 9).is_active = samStudent.is_active := by
  have h := toggle_status_frame aliceAdmin samStudent [samStudent, aliceAdmin] 1 5 9
    (by decide) (by decide) (Or.inl (by decide))
  exact ⟨h.1, h.2.2.2.2.2.2.2.2.2.2.1, h.2.2.2.2.2.2.2.2.2.2.2⟩

/-- The retry loop never makes more attempts than it has iterations left:
starting at attempt `i` with `fuel` iterations, at most `i + fuel` attempts
are counted. -/
theorem make_requestLoop_attempts_le (attempts : Nat → HttpAttempt)
    (fuel : Nat) : ∀ i slept, (make_requestLoop attempts fuel i slept).attempts_made ≤ i + fuel := by
  induction fuel with
  | zero => intro i slept; simp [make_requestLoop]
  | succ n ih =>
    intro i slept
    cases h : attempts i with
    | response status hc p =>
      simp only [make_requestLoop, h]
      repeat' split
      all_goals simp
    | requestException =>
      simp only [make_requestLoop, h]
      omega
    | connectionError =>
      by_cases hn : n = 0
      · subst hn; simp [make_requestLoop, h]
      · have hrec := ih (i + 1) (slept + 1)
        simp only [make_requestLoop, h]
        rw [if_neg (by simpa using hn)]
        omega
    | timeoutError =>
      by_cases hn : n = 0
      · subst hn; simp [make_requestLoop, h]
      · have hrec := ih (i + 1) (slept + 1)
        simp only [make_requestLoop, h]
        rw [if_neg (by simpa using hn)]
        omega

/-- When every attempt is a transport failure, the retry loop runs all its
iterations, sleeps one second between consecutive attempts, and reports
the exhaustion outcome of its last attempt. -/
theorem make_requestLoop_all_transport (attempts : Nat → HttpAttempt)
    (fuel : Nat) (hfuel : fuel ≠ 0)
    (ht : ∀ j, (attempts j).isTransport = true) :
    ∀ i slept, make_requestLoop attempts fuel i slept =
      ⟨(attempts (i + fuel - 1)).exhaustedOutcome, i + fuel, slept + (fuel - 1)⟩ := by
  induction fuel with
  | zero => exact absurd rfl hfuel
  | succ n ih =>
    intro i slept
    have hti := ht i
    cases h : attempts i with
    | response status hc p => rw [h] at hti; simp [HttpAttempt.isTransport] at hti
    | requestException => rw [h] at hti; simp [HttpAttempt.isTransport] at hti
    | connectionError =>
      by_cases hn : n = 0
      · subst hn
        simp [make_requestLoop, h, HttpAttempt.exhaustedOutcome]
      · have hrec := ih hn (i + 1) (slept + 1)
        simp only [make_requestLoop, h]
        rw [if_neg (by simpa using hn), hrec]
        have e1 : i + 1 + n - 1 = i + (n + 1) - 1 := by omega
        have e2 : i + 1 + n = i + (n + 1) := by omega
        have e3 : slept + 1 + (n - 1) = slept + (n + 1 - 1) := by omega
        rw [e1, e2, e3]
    | timeoutError =>
      by_cases hn : n = 0
      · subst hn
        simp [make_requestLoop, h, HttpAttempt.exhaustedOutcome]
      · have hrec := ih hn (i + 1) (slept + 1)
        simp only [make_requestLoop, h]
        rw [if_neg (by simpa using hn), hrec]
        have e1 : i + 1 + n - 1 = i + (n + 1) - 1 := by omega
        have e2 : i + 1 + n = i + (n + 1) := by omega
        have e3 : slept + 1 + (n - 1) = slept + (n + 1 - 1) := by omega
        rw [e1, e2, e3]

/-- A run of `m` consecutive transport failures just advances the loop by
`m` attempts and `m` slept seconds (provided attempts remain after them). -/
theorem make_requestLoop_skip_transport (attempts : Nat → HttpAttempt)
    (m : Nat) : ∀ fuel i slept, m < fuel →
    (∀ j, j < m → (attempts (i + j)).isTransport = true) →
    make_requestLoop attempts fuel i slept =
      make_requestLoop attempts (fuel - m) (i + m) (slept + m) := by
  induction m with
  | zero => intro fuel i slept _ _; simp
  | succ k ih =>
    intro fuel i slept hm ht
    obtain ⟨n, rfl⟩ : ∃ n, fuel = n + 1 := ⟨fuel - 1, by omega⟩
    have hn : n ≠ 0 := by omega
    have h0 : (attempts i).isTransport = true := by
      have := ht 0 (by omega)
      simpa using this
    have hstep : make_requestLoop attempts (n + 1) i slept =
        make_requestLoop attempts n (i + 1) (slept + 1) := by
      cases h : attempts i with
      | response status hc p => rw [h] at h0; simp [HttpAttempt.isTransport] at h0
      | requestException => rw [h] at h0; simp [HttpAttempt.isTransport] at h0
      | connectionError =>
        simp only [make_requestLoop, h]
        rw [if_neg (by simpa using hn)]
      | timeoutError =>
        simp only [make_requestLoop, h]
        rw [if_neg (by simpa using hn)]
    rw [hstep]
    have hrec := ih n (i + 1) (slept + 1) (by omega) (fun j hj => by
      have hh := ht (j + 1) (by omega)
      have e : i + (j + 1) = i + 1 + j := by omega
      rw [e] at hh
      exact hh)
    rw [hrec]
    have e1 : n - k = n + 1 - (k + 1) := by omega
    have e2 : i + 1 + k = i + (k + 1) := by omega
    have e3 : slept + 1 + k = slept + (k + 1) := by omega
    rw [e1, e2, e3]

/-- A non-transport attempt ends the loop at once: whatever its kind
(HTTP response of any status, parse failure, or other request exception),
the loop returns after that attempt without retrying. -/
theorem make_requestLoop_stops (attempts : Nat → HttpAttempt)
    (fuel i slept : Nat) (hfuel : fuel ≠ 0)
    (h : (attempts i).isTransport = false) :
    (make_requestLoop attempts fuel i slept).attempts_made = i + 1 := by
  obtain ⟨n, rfl⟩ : ∃ n, fuel = n + 1 := ⟨fuel - 1, by omega⟩
  cases ha : attempts i with
  | connectionError => rw [ha] at h; simp [HttpAttempt.isTransport] at h
  | timeoutError => rw [ha] at h; simp [HttpAttempt.isTransport] at h
  | requestException => simp [make_requestLoop, ha]
  | response status hc p =>
    simp only [make_requestLoop, ha]
    repeat' split
    all_goals rfl

/-- C4: the `make_request` retry policy, for any budget of at least one
attempt: (1) when every attempt is a transport failure (connection error
or timeout) the loop runs the whole budget with a flat one-second sleep
between consecutive attempts (`retries - 1` seconds in total) and reports
the transport-exhaustion error of its last attempt; (2) a first attempt
answered with a non-2xx status returns immediately as the structured HTTP
failure with one attempt and no sleep; (3) a first attempt answered 200/201
whose nonempty body does not parse returns immediately as the invalid-JSON
failure with one attempt and no sleep; (4) the loop never makes more
attempts than the budget; (5) after any run of transport failures, the
first non-transport attempt — in particular any business-logic failure —
ends the call immediately, so such failures are never retried. -/
theorem make_request_retry_policy (attempts : Nat → HttpAttempt) (retries : Nat)
    (hr : 1 ≤ retries) :
    ((∀ j, (attempts j).isTransport = true) →
      make_request attempts retries =
        ⟨(attempts (retries - 1)).exhaustedOutcome, retries, retries - 1⟩)
    ∧ (∀ status hc p, attempts 0 = .response status hc p →
        status ≠ 200 → status ≠ 201 →
        make_request attempts retries = ⟨.httpFailure status p, 1, 0⟩)
    ∧ (∀ status, (status = 200 ∨ status = 201) →
        attempts 0 = .response status true false →
        make_request attempts retries = ⟨.invalidJsonOnSuccess, 1, 0⟩)
    ∧ (make_request attempts retries).attempts_made ≤ retries
    ∧ (∀ k, k < retries → (∀ j, j < k → (attempts j).isTransport = true) →
        (attempts k).isTransport = false →
        (make_request attempts retries).attempts_made = k + 1) := by
  obtain ⟨n, rfl⟩ : ∃ n, retries = n + 1 := ⟨retries - 1, by omega⟩
  refine ⟨?_, ?_, ?_, ?_, ?_⟩
  · intro ht
    have h := make_requestLoop_all_transport attempts (n + 1) (by omega) ht 0 0
    simpa using h
  · intro status hc p h0 h200 h201
    unfold make_request
    simp only [make_requestLoop, h0]
    have hs : (status == 200 || status == 201) = false := by
      simp [h200, h201]
    rw [hs]
    simp
  · intro status hs h0
    unfold make_request
    simp only [make_requestLoop, h0]
    have hs2 : (status == 200 || status == 201) = true := by
      rcases hs with h | h <;> simp [h]
    rw [hs2]
    simp
  · have h := make_requestLoop_attempts_le attempts (n + 1) 0 0
    simpa using h
  · intro k hk hpre hstop
    unfold make_request
    have hskip := make_requestLoop_skip_transport attempts k (n + 1) 0 0 hk
      (fun j hj => by simpa using hpre j hj)
    rw [hskip]
    have hstops := make_requestLoop_stops attempts (n + 1 - k) (0 + k) (0 + k)
      (by omega) (by simpa using hstop)
    simpa using hstops

/-- A schedule where every attempt raises a connection error. -/
def allConnFail : Nat → HttpAttempt := fun _ => .connectionError

/-- A schedule whose attempts are 403 responses with parseable bodies. -/
def forbiddenFirst : Nat → HttpAttempt := fun _ => .response 403 true true

/-- A schedule whose attempts are 200 responses with unparseable bodies. -/
def badJsonFirst : Nat → HttpAttempt := fun _ => .response 200 true false

/-- Witness for C4, at the default budget of 3: three consecutive
connection failures exhaust the budget (3 attempts, 2 seconds of flat
backoff) and yield the connectivity error; a single 403 yields the
structured failure immediately with zero retries; a single 200 with an
unparseable body yields the parse failure immediately with zero retries. -/
theorem make_request_retry_policy_witness :
    make_request allConnFail default_retries = ⟨.connectionFailure, 3, 2⟩
    ∧ make_request forbiddenFirst default_retries = ⟨.httpFailure 403 true, 1, 0⟩
    ∧ make_request badJsonFirst default_retries = ⟨.invalidJsonOnSuccess, 1, 0⟩ :=
  ⟨(make_request_retry_policy allConnFail default_retries (by decide)).1
      (fun _ => rfl),
    (make_request_retry_policy forbiddenFirst default_retries (by decide)).2.1
      403 true true rfl (by decide) (by decide),
    (make_request_retry_policy badJsonFirst default_retries (by decide)).2.2.1
      200 (Or.inl rfl) rfl⟩

end UsersTest
